import Mathlib

/-!
Shallow embedding of the session/state engine of the vertical-tabs browser
extension (src/background.js, first revision). Host-API calls (tab/window
enumeration and creation, the key-value stores) are modelled by explicit
parameters and explicit state passing; `Date.now()` is an explicit `now`
argument; JavaScript objects used as maps are modelled as association lists
in key-insertion order.
-/

namespace VTabs

/-- JavaScript `a || d` for an optional string: `undefined`/`null` and the
empty string are falsy. -/
def jsStrOr (o : Option String) (d : String) : String :=
  match o with
  | none => d
  | some s => if s = "" then d else s

/-- JavaScript `a || d` for an optional number: `undefined`/`null` and `0`
are falsy. -/
def jsNatOr (o : Option Nat) (d : Nat) : Nat :=
  match o with
  | none => d
  | some n => if n = 0 then d else n

/-- JavaScript `s.startsWith(p)`. -/
def jsStartsWith (s p : String) : Bool :=
  p.toList.isPrefixOf s.toList

/-- JavaScript `Object.assign(base, upd)` / spread-merge on string-keyed
objects: keys of `upd` overwrite keys of `base`, new keys are appended. -/
def jsAssign (base upd : List (String × String)) : List (String × String) :=
  base.map (fun p => match upd.lookup p.1 with | some v => (p.1, v) | none => p) ++
    upd.filter (fun q => (base.lookup q.1).isNone)

/-- A tab record inside a persisted snapshot (`sessionTabs` element in
`collectSessionState`). -/
structure TabSnapshot where
  url : Option String
  title : String
  pinned : Bool
  groupId : String
  deriving Repr, DecidableEq

/-- A window record inside a persisted snapshot. -/
structure WindowSnapshot where
  tabs : List TabSnapshot
  groupNames : List (String × String)
  deriving Repr, DecidableEq

/-- The Collector's output (`collectSessionState` return value). -/
structure SessionState where
  windows : List WindowSnapshot
  groupNames : List (String × String)
  timestamp : Nat
  deriving Repr, DecidableEq

/-- A stored session record in the `sessions` array. -/
structure Session where
  id : String
  timestamp : Nat
  totalTabs : Nat
  windowCount : Nat
  windows : List WindowSnapshot
  groupNames : List (String × String)
  deriving Repr, DecidableEq

/-- The session configuration (`getSessionConfig` result, default
`maxSessions = 3`). -/
structure SessionConfig where
  maxSessions : Nat
  deriving Repr, DecidableEq

/-- `sessionState.windows.reduce((sum, w) => sum + w.tabs.length, 0)`. -/
def totalTabsOf (ws : List WindowSnapshot) : Nat :=
  ws.foldl (fun sum w => sum + w.tabs.length) 0

/-- `createNewSession(sessionState)` from src/background.js: builds a new
record, prepends it (`unshift`), truncates to `config.maxSessions`
(`slice(0, config.maxSessions)`), persists.  Returns the new record and the
stored array. -/
def createNewSession (now : Nat) (sessionState : SessionState)
    (sessions : List Session) (config : SessionConfig) :
    Session × List Session :=
  let totalTabs := totalTabsOf sessionState.windows
  let windowCount := sessionState.windows.length
  let newSession : Session :=
    { id := "session-" ++ toString now
      timestamp := now
      totalTabs := totalTabs
      windowCount := windowCount
      windows := sessionState.windows
      groupNames := sessionState.groupNames }
  let trimmedSessions := (newSession :: sessions).take config.maxSessions
  (newSession, trimmedSessions)

/-- `updateCurrentSession(sessionState)` from src/background.js: on an empty
array delegates to `createNewSession`; otherwise overwrites element 0 with a
spread of the old record and the fresh data (the old `id` is kept). -/
def updateCurrentSession (now : Nat) (sessionState : SessionState)
    (sessions : List Session) (config : SessionConfig) :
    Session × List Session :=
  match sessions with
  | [] => createNewSession now sessionState sessions config
  | s0 :: rest =>
    let totalTabs := totalTabsOf sessionState.windows
    let windowCount := sessionState.windows.length
    let updated : Session :=
      { s0 with
        timestamp := now
        totalTabs := totalTabs
        windowCount := windowCount
        windows := sessionState.windows
        groupNames := sessionState.groupNames }
    (updated, updated :: rest)

/-- `autoSaveSession()` from src/background.js, with the Collector's output
passed in: skips entirely when the collected snapshot has no tabs, otherwise
calls `updateCurrentSession` (never `createNewSession`).  Returns the stored
array after the call. -/
def autoSaveSession (now : Nat) (sessionState : SessionState)
    (sessions : List Session) (config : SessionConfig) : List Session :=
  let totalCurrentTabs := totalTabsOf sessionState.windows
  if totalCurrentTabs = 0 then
    sessions
  else
    (updateCurrentSession now sessionState sessions config).2

/-- The ephemeral tab-to-group mapping (`tabGroupMap`), a JavaScript object
keyed by tab id. -/
abbrev TabGroupMap := List (Nat × String)

/-- The ephemeral per-window data (`windowData`), keyed by window id; each
entry holds that window's `groupNames` object. -/
abbrev WindowData := List (Nat × List (String × String))

/-- A live browser tab as returned by `chrome.tabs.query`. -/
structure BrowserTab where
  id : Nat
  url : Option String
  title : String
  pinned : Bool
  deriving Repr, DecidableEq

/-- A live browser window as returned by `chrome.windows.getAll`, together
with its tabs. -/
structure BrowserWindow where
  id : Nat
  tabs : List BrowserTab
  deriving Repr, DecidableEq

/-- The fixed internal-scheme list of `isRestorableUrl`. -/
def restrictedSchemeList : List String :=
  ["chrome://", "chrome-extension://", "chrome-search://",
   "chrome-devtools://", "edge://", "about:", "moz-extension://"]

/-- `isRestorableUrl(url)` from src/background.js: falsy URLs are not
restorable, nor is a URL starting with any restricted scheme. -/
def isRestorableUrl (url : Option String) : Bool :=
  match url with
  | none => false
  | some u =>
    if u = "" then false
    else !(restrictedSchemeList.any fun p => jsStartsWith u p)

/-- The `sessionTabs` computation of `collectSessionState` for one window:
filter by restorability, then project each tab to a `TabSnapshot` with
`groupId = tabGroupMap[tab.id] || 'ungrouped'`. -/
def sessionTabsOf (tabGroupMap : TabGroupMap) (w : BrowserWindow) :
    List TabSnapshot :=
  (w.tabs.filter fun tab => isRestorableUrl tab.url).map fun tab =>
    { url := tab.url
      title := tab.title
      pinned := tab.pinned
      groupId := jsStrOr (tabGroupMap.lookup tab.id) "ungrouped" }

/-- `windowData[window.id] ? windowData[window.id].groupNames : {}`. -/
def windowGroupsOf (windowData : WindowData) (w : BrowserWindow) :
    List (String × String) :=
  (windowData.lookup w.id).getD []

/-- The window loop of `collectSessionState`: accumulates the
`sessionWindows` array (windows with at least one restorable tab) and the
`allGroupNames` object (`Object.assign` over every visited window). -/
def collectLoop (tabGroupMap : TabGroupMap) (windowData : WindowData) :
    List WindowSnapshot × List (String × String) → List BrowserWindow →
    List WindowSnapshot × List (String × String)
  | acc, [] => acc
  | acc, w :: rest =>
    let windowGroups := windowGroupsOf windowData w
    let allNames := jsAssign acc.2 windowGroups
    let sessionTabs := sessionTabsOf tabGroupMap w
    let wins :=
      if sessionTabs.length > 0 then acc.1 ++ [⟨sessionTabs, windowGroups⟩]
      else acc.1
    collectLoop tabGroupMap windowData (wins, allNames) rest

/-- `collectSessionState()` from src/background.js, with the live windows
passed in. -/
def collectSessionState (tabGroupMap : TabGroupMap) (windowData : WindowData)
    (allWindows : List BrowserWindow) (now : Nat) : SessionState :=
  let r := collectLoop tabGroupMap windowData ([], []) allWindows
  { windows := r.1, groupNames := r.2, timestamp := now }

/-- Every open tab across all windows, as `chrome.tabs.query` with an empty
filter returns. -/
def allTabsOf (allWindows : List BrowserWindow) : List BrowserTab :=
  (allWindows.map (fun w => w.tabs)).flatten

/-- `shouldCreateNewSession()` from src/background.js: true on an empty
store; otherwise true exactly for the fresh-start heuristic (one window, at
most two open tabs, most recent session recorded more than three tabs). -/
def shouldCreateNewSession (sessions : List Session)
    (allWindows : List BrowserWindow) : Bool :=
  match sessions with
  | [] => true
  | lastSession :: _ =>
    if allWindows.length = 1 ∧ (allTabsOf allWindows).length ≤ 2 then
      decide (lastSession.totalTabs > 3)
    else
      false

/-- The session-creation prelude of the `chrome.tabs.onCreated` listener:
when `shouldCreateNewSession()` holds, collect the current state and pass it
to `createNewSession` (with no emptiness guard).  Returns the stored
sessions afterwards. -/
def onCreatedSessionStep (now : Nat) (tabGroupMap : TabGroupMap)
    (windowData : WindowData) (allWindows : List BrowserWindow)
    (sessions : List Session) (config : SessionConfig) : List Session :=
  if shouldCreateNewSession sessions allWindows then
    (createNewSession now (collectSessionState tabGroupMap windowData allWindows now)
      sessions config).2
  else
    sessions

/-- The `saveSession` message handler (manual save): rejects a collected
snapshot with zero tabs, otherwise updates the current session.  Returns the
`success` flag and the stored sessions. -/
def saveSessionHandler (now : Nat) (tabGroupMap : TabGroupMap)
    (windowData : WindowData) (allWindows : List BrowserWindow)
    (sessions : List Session) (config : SessionConfig) :
    Bool × List Session :=
  let sessionState := collectSessionState tabGroupMap windowData allWindows now
  let totalTabs := totalTabsOf sessionState.windows
  if totalTabs = 0 then
    (false, sessions)
  else
    (true, (updateCurrentSession now sessionState sessions config).2)

/-- The `updateSessionConfig` message handler: persists the supplied config
as-is, then trims the stored sessions when they exceed the new
`maxSessions`.  Returns the `success` flag, the persisted config and the
stored sessions. -/
def updateSessionConfigHandler (config : SessionConfig)
    (sessions : List Session) : Bool × SessionConfig × List Session :=
  let newSessions :=
    if sessions.length > config.maxSessions then
      sessions.take config.maxSessions
    else
      sessions
  (true, config, newSessions)

/-- The `deleteGroup` message handler: on valid (truthy) ids and an existing
group-name entry, removes the name from that window's registry and deletes
every `tabGroupMap` entry whose value is the group id; otherwise fails.
Returns the `success` flag and the two updated maps. -/
def deleteGroupHandler (windowId : Nat) (groupId : String)
    (tabGroupMap : TabGroupMap) (windowData : WindowData) :
    Bool × TabGroupMap × WindowData :=
  if groupId ≠ "" ∧ windowId ≠ 0 then
    match windowData.lookup windowId with
    | some groupNames =>
      match groupNames.lookup groupId with
      | some name =>
        if name ≠ "" then
          let windowData' := windowData.map fun e =>
            if e.1 = windowId then (e.1, e.2.filter fun g => g.1 ≠ groupId) else e
          let tabGroupMap' := tabGroupMap.filter fun e => e.2 ≠ groupId
          (true, tabGroupMap', windowData')
        else
          (false, tabGroupMap, windowData)
      | none => (false, tabGroupMap, windowData)
    | none => (false, tabGroupMap, windowData)
  else
    (false, tabGroupMap, windowData)

/-- The legacy single-session durable record (`savedSession`). -/
structure LegacySession where
  windows : List WindowSnapshot
  timestamp : Option Nat
  deriving Repr, DecidableEq

/-- The durable store keys touched by `migrateFromOldStorage`. -/
structure LocalStorage where
  savedSession : Option LegacySession
  lastSaved : Option Nat
  sessions : Option (List Session)
  deriving Repr, DecidableEq

/-- `migrateFromOldStorage()` from src/background.js: when a legacy record
exists and no `sessions` key does, wrap it into a one-element `sessions`
array and remove the legacy keys; otherwise do nothing. -/
def migrateFromOldStorage (now : Nat) (storage : LocalStorage) : LocalStorage :=
  match storage.savedSession, storage.sessions with
  | some legacySession, none =>
    let totalTabs := totalTabsOf legacySession.windows
    let windowCount := legacySession.windows.length
    let migratedSession : Session :=
      { id := "session-" ++ toString (jsNatOr storage.lastSaved now)
        timestamp := jsNatOr storage.lastSaved (jsNatOr legacySession.timestamp now)
        totalTabs := totalTabs
        windowCount := windowCount
        windows := legacySession.windows
        groupNames := [] }
    { savedSession := none, lastSaved := none, sessions := some [migratedSession] }
  | _, _ => storage

/-- JavaScript object update `m[k] = v`: overwrite in place when the key
exists, append otherwise. -/
def setAssoc (m : TabGroupMap) (k : Nat) (v : String) : TabGroupMap :=
  if (m.lookup k).isSome then m.map fun e => if e.1 = k then (k, v) else e
  else m ++ [(k, v)]

/-- JavaScript object update on `windowData`: the restore loop initialises
the entry and then overwrites its `groupNames`. -/
def setWindowEntry (windowData : WindowData) (k : Nat)
    (v : List (String × String)) : WindowData :=
  if (windowData.lookup k).isSome then
    windowData.map fun e => if e.1 = k then (k, v) else e
  else
    windowData ++ [(k, v)]

/-- The inner tab loop of `restoreSession`: creates the remaining tabs of a
window sequentially (the host assigns consecutive fresh tab ids in this
model) and maps each non-`ungrouped` tab to its recorded group. -/
def restoreTabsLoop : List TabSnapshot → TabGroupMap → Nat → TabGroupMap × Nat
  | [], tabGroupMap, nextTabId => (tabGroupMap, nextTabId)
  | tab :: rest, tabGroupMap, nextTabId =>
    let tgm :=
      if tab.groupId ≠ "" ∧ tab.groupId ≠ "ungrouped" then
        setAssoc tabGroupMap nextTabId tab.groupId
      else
        tabGroupMap
    restoreTabsLoop rest tgm (nextTabId + 1)

/-- The window loop of `restoreSession`: skips empty windows, creates a new
window seeded with the first tab, merges the session-wide and window-local
group names into `windowData`, then creates the remaining tabs. -/
def restoreWindowsLoop (session : Session) :
    List WindowSnapshot → TabGroupMap → WindowData → Nat → Nat →
    TabGroupMap × WindowData × Nat × Nat
  | [], tabGroupMap, windowData, nextWinId, nextTabId =>
    (tabGroupMap, windowData, nextWinId, nextTabId)
  | w :: rest, tabGroupMap, windowData, nextWinId, nextTabId =>
    match w.tabs with
    | [] => restoreWindowsLoop session rest tabGroupMap windowData nextWinId nextTabId
    | firstTab :: restTabs =>
      let newWindowId := nextWinId
      let firstTabId := nextTabId
      let mergedNames := jsAssign session.groupNames w.groupNames
      let wd := setWindowEntry windowData newWindowId mergedNames
      let tgm1 :=
        if firstTab.groupId ≠ "" ∧ firstTab.groupId ≠ "ungrouped" then
          setAssoc tabGroupMap firstTabId firstTab.groupId
        else
          tabGroupMap
      let r := restoreTabsLoop restTabs tgm1 (firstTabId + 1)
      restoreWindowsLoop session rest r.1 wd (newWindowId + 1) r.2

/-- `restoreSession(session)` from src/background.js: throws (`some`
message) when the session is absent or has no windows, leaving both maps
untouched; otherwise replays every window and persists the accumulated maps
at the end. -/
def restoreSession (session : Option Session) (tabGroupMap : TabGroupMap)
    (windowData : WindowData) (nextWinId nextTabId : Nat) :
    Option String × TabGroupMap × WindowData × Nat × Nat :=
  match session with
  | none =>
    (some "No valid session data to restore", tabGroupMap, windowData,
      nextWinId, nextTabId)
  | some s =>
    if s.windows.length = 0 then
      (some "No valid session data to restore", tabGroupMap, windowData,
        nextWinId, nextTabId)
    else
      let r := restoreWindowsLoop s s.windows tabGroupMap windowData nextWinId nextTabId
      (none, r.1, r.2.1, r.2.2.1, r.2.2.2)

end VTabs

namespace VTabs

/-- `totalTabsOf` is the sum of the per-window tab counts. -/
theorem totalTabsOf_eq_sum (ws : List WindowSnapshot) :
    totalTabsOf ws = (ws.map (fun w => w.tabs.length)).sum := by
  have h : ∀ (l : List WindowSnapshot) (n : Nat),
      l.foldl (fun sum w => sum + w.tabs.length) n =
        n + (l.map (fun w => w.tabs.length)).sum := by
    intro l
    induction l with
    | nil => intro n; simp
    | cons w t ih =>
      intro n
      simp [List.foldl_cons, ih, Nat.add_assoc]
  simpa [totalTabsOf] using h ws 0

/-- C1: every `createNewSession` call leaves at most `config.maxSessions`
stored sessions, puts the new record at index 0, and when the store was
already at the bound it drops exactly the oldest (last) previous session. -/
theorem createNewSession_bound (now : Nat) (st : SessionState)
    (sessions : List Session) (config : SessionConfig)
    (hmax : 1 ≤ config.maxSessions) :
    ((createNewSession now st sessions config).2).length ≤ config.maxSessions ∧
    ((createNewSession now st sessions config).2).head? =
      some (createNewSession now st sessions config).1 ∧
    (sessions.length = config.maxSessions →
      (createNewSession now st sessions config).2 =
        (createNewSession now st sessions config).1 :: sessions.dropLast) := by
  obtain ⟨k, hk0⟩ := Nat.exists_eq_add_of_le hmax
  have hk : config.maxSessions = k + 1 := by omega
  refine ⟨?_, ?_, ?_⟩
  · simp [createNewSession]
  · simp [createNewSession, hk, List.take_succ_cons]
  · intro hlen
    simp only [createNewSession, hk, List.take_succ_cons]
    have : k = sessions.length - 1 := by omega
    subst this
    simp [List.dropLast_eq_take]

/-- Witness for C1 at `maxSessions = 2` with a store already at the bound. -/
theorem createNewSession_bound_witness :
    ((createNewSession 50 ⟨[], [], 50⟩
        [⟨"session-10", 10, 4, 1, [], []⟩, ⟨"session-5", 5, 6, 2, [], []⟩]
        ⟨2⟩).2).length ≤ 2 ∧
    ((createNewSession 50 ⟨[], [], 50⟩
        [⟨"session-10", 10, 4, 1, [], []⟩, ⟨"session-5", 5, 6, 2, [], []⟩]
        ⟨2⟩).2).head? =
      some (createNewSession 50 ⟨[], [], 50⟩
        [⟨"session-10", 10, 4, 1, [], []⟩, ⟨"session-5", 5, 6, 2, [], []⟩]
        ⟨2⟩).1 ∧
    ([⟨"session-10", 10, 4, 1, [], []⟩,
      (⟨"session-5", 5, 6, 2, [], []⟩ : Session)].length = 2 →
      (createNewSession 50 ⟨[], [], 50⟩
        [⟨"session-10", 10, 4, 1, [], []⟩, ⟨"session-5", 5, 6, 2, [], []⟩]
        ⟨2⟩).2 =
        (createNewSession 50 ⟨[], [], 50⟩
          [⟨"session-10", 10, 4, 1, [], []⟩, ⟨"session-5", 5, 6, 2, [], []⟩]
          ⟨2⟩).1 ::
          [⟨"session-10", 10, 4, 1, [], []⟩,
           (⟨"session-5", 5, 6, 2, [], []⟩ : Session)].dropLast) :=
  createNewSession_bound 50 ⟨[], [], 50⟩
    [⟨"session-10", 10, 4, 1, [], []⟩, ⟨"session-5", 5, 6, 2, [], []⟩]
    ⟨2⟩ (by decide)

/-- C5: `updateCurrentSession` on an empty store behaves as
`createNewSession`; on a non-empty store it keeps element 0's `id` and the
length; a second call with the same snapshot content changes element 0 only
in its `timestamp` field. -/
theorem updateCurrentSession_spec (now1 now2 : Nat) (st : SessionState)
    (sessions : List Session) (config : SessionConfig)
    (hmax : 1 ≤ config.maxSessions) :
    updateCurrentSession now1 st [] config = createNewSession now1 st [] config ∧
    (sessions ≠ [] →
      ((updateCurrentSession now1 st sessions config).2).length = sessions.length ∧
      ((updateCurrentSession now1 st sessions config).2).head?.map Session.id =
        sessions.head?.map Session.id) ∧
    ((updateCurrentSession now2 st
        (updateCurrentSession now1 st sessions config).2 config).2).head? =
      ((updateCurrentSession now1 st sessions config).2).head?.map
        (fun s => { s with timestamp := now2 }) := by
  obtain ⟨k, hk0⟩ := Nat.exists_eq_add_of_le hmax
  have hk : config.maxSessions = k + 1 := by omega
  refine ⟨rfl, ?_, ?_⟩
  · intro hne
    match sessions with
    | [] => exact absurd rfl hne
    | s0 :: rest => simp [updateCurrentSession]
  · match sessions with
    | [] =>
      simp [updateCurrentSession, createNewSession, hk, List.take_succ_cons]
    | s0 :: rest =>
      simp [updateCurrentSession]

/-- Witness for C5 on a one-element store with a one-window snapshot. -/
theorem updateCurrentSession_spec_witness :
    updateCurrentSession 1
        ⟨[⟨[⟨some "https://a", "A", false, "ungrouped"⟩], []⟩], [], 1⟩ [] ⟨3⟩ =
      createNewSession 1
        ⟨[⟨[⟨some "https://a", "A", false, "ungrouped"⟩], []⟩], [], 1⟩ [] ⟨3⟩ ∧
    ([⟨"session-0", 0, 5, 1, [], []⟩] ≠ ([] : List Session) →
      ((updateCurrentSession 1
          ⟨[⟨[⟨some "https://a", "A", false, "ungrouped"⟩], []⟩], [], 1⟩
          [⟨"session-0", 0, 5, 1, [], []⟩] ⟨3⟩).2).length =
        [(⟨"session-0", 0, 5, 1, [], []⟩ : Session)].length ∧
      ((updateCurrentSession 1
          ⟨[⟨[⟨some "https://a", "A", false, "ungrouped"⟩], []⟩], [], 1⟩
          [⟨"session-0", 0, 5, 1, [], []⟩] ⟨3⟩).2).head?.map Session.id =
        [(⟨"session-0", 0, 5, 1, [], []⟩ : Session)].head?.map Session.id) ∧
    ((updateCurrentSession 2
        ⟨[⟨[⟨some "https://a", "A", false, "ungrouped"⟩], []⟩], [], 1⟩
        (updateCurrentSession 1
          ⟨[⟨[⟨some "https://a", "A", false, "ungrouped"⟩], []⟩], [], 1⟩
          [⟨"session-0", 0, 5, 1, [], []⟩] ⟨3⟩).2 ⟨3⟩).2).head? =
      ((updateCurrentSession 1
          ⟨[⟨[⟨some "https://a", "A", false, "ungrouped"⟩], []⟩], [], 1⟩
          [⟨"session-0", 0, 5, 1, [], []⟩] ⟨3⟩).2).head?.map
        (fun s => { s with timestamp := 2 }) :=
  updateCurrentSession_spec 1 2
    ⟨[⟨[⟨some "https://a", "A", false, "ungrouped"⟩], []⟩], [], 1⟩
    [⟨"session-0", 0, 5, 1, [], []⟩] ⟨3⟩ (by decide)

/-- C4: the auto-save fire performs no repository write when the collected
snapshot has zero tabs, otherwise delegates exactly to
`updateCurrentSession`, and never grows the store beyond
`max sessions.length 1`. -/
theorem autoSaveSession_spec (now : Nat) (st : SessionState)
    (sessions : List Session) (config : SessionConfig) :
    (totalTabsOf st.windows = 0 →
      autoSaveSession now st sessions config = sessions) ∧
    (totalTabsOf st.windows ≠ 0 →
      autoSaveSession now st sessions config =
        (updateCurrentSession now st sessions config).2) ∧
    (autoSaveSession now st sessions config).length ≤ max sessions.length 1 := by
  refine ⟨?_, ?_, ?_⟩
  · intro h; simp [autoSaveSession, h]
  · intro h; simp [autoSaveSession, h]
  · by_cases h : totalTabsOf st.windows = 0
    · simp [autoSaveSession, h]
    · match sessions with
      | [] => simp [autoSaveSession, h, updateCurrentSession, createNewSession]
      | s0 :: rest => simp [autoSaveSession, h, updateCurrentSession]

/-- Witness for C4 with an empty snapshot (skip branch) at one stored
session. -/
theorem autoSaveSession_spec_witness :
    autoSaveSession 7 ⟨[], [], 7⟩ [⟨"session-0", 0, 5, 1, [], []⟩] ⟨3⟩ =
      [⟨"session-0", 0, 5, 1, [], []⟩] :=
  (autoSaveSession_spec 7 ⟨[], [], 7⟩ [⟨"session-0", 0, 5, 1, [], []⟩] ⟨3⟩).1 rfl

/-- A true `jsStartsWith` forces the head characters to agree (or the
pattern to be empty). -/
theorem jsStartsWith_head (u p : String) (h : jsStartsWith u p = true) :
    p.toList = [] ∨ p.toList.head? = u.toList.head? := by
  rw [jsStartsWith] at h
  match hp : p.toList, hu : u.toList with
  | [], _ => exact Or.inl rfl
  | c :: cs, [] => rw [hp, hu] at h; simp [List.isPrefixOf] at h
  | c :: cs, d :: ds =>
    rw [hp, hu] at h
    simp [List.isPrefixOf] at h
    exact Or.inr (by simp [h.1])

/-- A window contributes session tabs exactly when one of its tabs is
restorable. -/
theorem sessionTabsOf_pos (tabGroupMap : TabGroupMap) (w : BrowserWindow) :
    0 < (sessionTabsOf tabGroupMap w).length ↔
      (w.tabs.any fun t => isRestorableUrl t.url) = true := by
  simp [sessionTabsOf, List.length_pos, List.filter_eq_nil_iff,
    List.any_eq_true]

/-- The `sessionWindows` component of the collect loop is the accumulator
followed by one `WindowSnapshot` per window having a restorable tab. -/
theorem collectLoop_fst (tabGroupMap : TabGroupMap) (windowData : WindowData)
    (ws : List BrowserWindow) :
    ∀ acc, (collectLoop tabGroupMap windowData acc ws).1 =
      acc.1 ++ (ws.filter fun w => w.tabs.any fun t => isRestorableUrl t.url).map
        (fun w => ⟨sessionTabsOf tabGroupMap w, windowGroupsOf windowData w⟩) := by
  induction ws with
  | nil => intro acc; simp [collectLoop]
  | cons w rest ih =>
    intro acc
    rw [collectLoop, ih, List.filter_cons]
    by_cases h : 0 < (sessionTabsOf tabGroupMap w).length
    · rw [if_pos h, (sessionTabsOf_pos tabGroupMap w).mp h]
      simp
    · rw [if_neg h]
      have : (w.tabs.any fun t => isRestorableUrl t.url) = false := by
        by_contra hcon
        simp only [Bool.not_eq_false] at hcon
        exact absurd ((sessionTabsOf_pos tabGroupMap w).mpr hcon) h
      rw [this]
      simp

/-- C6: a tab with an absent URL or a restricted-scheme URL is excluded by
the restorability predicate, an `https://` URL is always restorable, and the
collected snapshot holds exactly one `WindowSnapshot` per live window that
has at least one restorable tab. -/
theorem collector_restorability (u p : String) (tabGroupMap : TabGroupMap)
    (windowData : WindowData) (ws : List BrowserWindow) (now : Nat) :
    isRestorableUrl none = false ∧
    (p ∈ restrictedSchemeList → jsStartsWith u p = true →
      isRestorableUrl (some u) = false) ∧
    (jsStartsWith u "https://" = true → isRestorableUrl (some u) = true) ∧
    (collectSessionState tabGroupMap windowData ws now).windows =
      (ws.filter fun w => w.tabs.any fun t => isRestorableUrl t.url).map
        (fun w => ⟨sessionTabsOf tabGroupMap w, windowGroupsOf windowData w⟩) := by
  refine ⟨rfl, ?_, ?_, ?_⟩
  · intro hp hs
    by_cases hu : u = ""
    · simp [isRestorableUrl, hu]
    · simp [isRestorableUrl, hu, List.any_eq_true]
      exact ⟨p, hp, hs⟩
  · intro hs
    have h8 : "https://".toList = ['h', 't', 't', 'p', 's', ':', '/', '/'] := by
      decide
    have hL : ∃ cs, u.toList = 'h' :: cs := by
      rw [jsStartsWith, h8] at hs
      match hcs : u.toList with
      | [] => rw [hcs] at hs; simp [List.isPrefixOf] at hs
      | c :: cs =>
        rw [hcs] at hs
        simp [List.isPrefixOf] at hs
        exact ⟨cs, by rw [hs.1]⟩
    obtain ⟨cs, hL⟩ := hL
    have hu : u ≠ "" := by
      intro h0
      have hnil : u.toList = [] := by rw [h0]; rfl
      rw [hnil] at hL
      exact List.noConfusion hL
    have hall : ∀ q ∈ restrictedSchemeList,
        q.toList ≠ [] ∧ q.toList.head? ≠ some 'h' := by decide
    simp only [isRestorableUrl]
    rw [if_neg hu, Bool.not_eq_true', List.any_eq_false]
    intro q hq hbad
    rcases jsStartsWith_head u q hbad with hnil | hhd
    · exact (hall q hq).1 hnil
    · exact (hall q hq).2 (by rw [hhd, hL]; rfl)
  · exact collectLoop_fst tabGroupMap windowData ws ([], [])

/-- Witness for C6: `about:blank` is excluded, an `https` page is included,
and a window holding only a `chrome://` tab contributes no snapshot. -/
theorem collector_restorability_witness :
    isRestorableUrl none = false ∧
    isRestorableUrl (some "about:blank") = false ∧
    isRestorableUrl (some "https://example.com") = true ∧
    (collectSessionState [] []
        [⟨1, [⟨10, some "chrome://newtab", "New Tab", false⟩]⟩,
         ⟨2, [⟨20, some "https://example.com", "Example", false⟩]⟩] 9).windows =
      [⟨[⟨some "https://example.com", "Example", false, "ungrouped"⟩], []⟩] := by
  have h := collector_restorability "about:blank" "about:" [] []
    [⟨1, [⟨10, some "chrome://newtab", "New Tab", false⟩]⟩,
     ⟨2, [⟨20, some "https://example.com", "Example", false⟩]⟩] 9
  have h2 := collector_restorability "https://example.com" "about:" [] [] [] 9
  refine ⟨h.1, h.2.1 (by decide) (by decide), h2.2.2.1 (by decide), ?_⟩
  rw [h.2.2.2]
  decide

/-- C7: the new-session decision returns true exactly when the store is
empty, or there is exactly one open window with at most two open tabs and
the most recent stored session recorded strictly more than three tabs. -/
theorem shouldCreateNewSession_iff (sessions : List Session)
    (allWindows : List BrowserWindow) :
    shouldCreateNewSession sessions allWindows = true ↔
      sessions = [] ∨
        (allWindows.length = 1 ∧ (allTabsOf allWindows).length ≤ 2 ∧
          ∃ s0, sessions.head? = some s0 ∧ s0.totalTabs > 3) := by
  match sessions with
  | [] => simp [shouldCreateNewSession]
  | s0 :: rest =>
    simp only [shouldCreateNewSession]
    by_cases h : allWindows.length = 1 ∧ (allTabsOf allWindows).length ≤ 2
    · rw [if_pos h]
      simp [h.1, h.2]
    · rw [if_neg h]
      simp only [List.head?_cons]
      constructor
      · intro hfalse; exact absurd hfalse (by simp)
      · rintro (hnil | ⟨h1, h2, _⟩)
        · exact absurd hnil (by simp)
        · exact absurd ⟨h1, h2⟩ h

/-- Witness for C7: an empty store decides "create" unconditionally. -/
theorem shouldCreateNewSession_iff_witness :
    shouldCreateNewSession [] [] = true :=
  (shouldCreateNewSession_iff [] []).mpr (Or.inl rfl)

/-- C2 counterexample: the `updateSessionConfig` handler accepts and
persists the out-of-range value `maxSessions = 0` (reporting success and
wiping the stored sessions) instead of rejecting it. -/
theorem updateSessionConfigHandler_accepts_out_of_range :
    updateSessionConfigHandler ⟨0⟩ [⟨"session-1", 1, 4, 1, [], []⟩] =
      (true, ⟨0⟩, []) := rfl

/-- C2 amended: the handler performs no range validation — it reports
success and persists any supplied config unchanged — and it truncates the
stored sessions to a prefix of at most the new `maxSessions` (dropping the
oldest); the 1–10 range check lives only in the popup UI. -/
theorem updateSessionConfigHandler_spec (config : SessionConfig)
    (sessions : List Session) :
    updateSessionConfigHandler config sessions =
      (true, config, sessions.take config.maxSessions) ∧
    ((updateSessionConfigHandler config sessions).2.2).length ≤
      config.maxSessions := by
  constructor
  · by_cases h : sessions.length > config.maxSessions
    · simp [updateSessionConfigHandler, h]
    · have hle : sessions.length ≤ config.maxSessions := by omega
      simp [updateSessionConfigHandler, h, List.take_of_length_le hle]
  · by_cases h : sessions.length > config.maxSessions
    · simp [updateSessionConfigHandler, h]
    · simp [updateSessionConfigHandler, h]
      omega

/-- C3 counterexample: a fresh-start tab-creation event with the prior
session rich (5 tabs) and only a `chrome://newtab` tab open triggers
`createNewSession` on an empty collected snapshot, persisting a session
record with `totalTabs = 0` at index 0 (the store then holds 2 records). -/
theorem onCreatedSessionStep_persists_empty :
    (onCreatedSessionStep 100 [] []
        [⟨1, [⟨10, some "chrome://newtab", "New Tab", false⟩]⟩]
        [⟨"session-1", 1, 5, 1, [], []⟩] ⟨3⟩).head?.map Session.totalTabs =
      some 0 ∧
    (onCreatedSessionStep 100 [] []
        [⟨1, [⟨10, some "chrome://newtab", "New Tab", false⟩]⟩]
        [⟨"session-1", 1, 5, 1, [], []⟩] ⟨3⟩).length = 2 := by
  constructor <;> rfl

/-- `updateCurrentSession` keeps the no-empty-snapshot invariant whenever
the incoming snapshot itself is non-empty. -/
theorem updateCurrentSession_all_totalTabs (now : Nat) (st : SessionState)
    (sessions : List Session) (config : SessionConfig)
    (hT : totalTabsOf st.windows ≠ 0)
    (hprev : sessions.all (fun s => s.totalTabs != 0) = true) :
    ((updateCurrentSession now st sessions config).2).all
      (fun s => s.totalTabs != 0) = true := by
  match sessions with
  | [] =>
    simp only [updateCurrentSession, createNewSession, List.all_eq_true]
    intro s hs
    have hmem := List.take_subset _ _ hs
    simp at hmem
    subst hmem
    simpa using hT
  | s0 :: rest =>
    simp only [updateCurrentSession, List.all_cons, List.all_eq_true,
      Bool.and_eq_true] at hprev ⊢
    exact ⟨by simpa using hT, hprev.2⟩

/-- C3 amended: the auto-save path and the manual `saveSession` handler
never persist a snapshot with `totalTabs = 0` (they skip or reject the
write), but the fresh-start creation in the tab-created handler has no such
guard. -/
theorem saves_never_persist_empty (now : Nat) (tabGroupMap : TabGroupMap)
    (windowData : WindowData) (allWindows : List BrowserWindow)
    (sessions : List Session) (config : SessionConfig)
    (hprev : sessions.all (fun s => s.totalTabs != 0) = true) :
    (autoSaveSession now (collectSessionState tabGroupMap windowData allWindows now)
        sessions config).all (fun s => s.totalTabs != 0) = true ∧
    ((saveSessionHandler now tabGroupMap windowData allWindows sessions config).2).all
      (fun s => s.totalTabs != 0) = true := by
  by_cases hT :
      totalTabsOf (collectSessionState tabGroupMap windowData allWindows now).windows = 0
  · constructor
    · simpa [autoSaveSession, hT] using hprev
    · simpa [saveSessionHandler, hT] using hprev
  · constructor
    · simp only [autoSaveSession, if_neg hT]
      exact updateCurrentSession_all_totalTabs now _ sessions config hT hprev
    · simp only [saveSessionHandler, if_neg hT]
      exact updateCurrentSession_all_totalTabs now _ sessions config hT hprev

/-- Witness for the amended C3 on one `https` tab and an empty store. -/
theorem saves_never_persist_empty_witness :
    (autoSaveSession 9
        (collectSessionState [] [] [⟨1, [⟨10, some "https://a", "A", false⟩]⟩] 9)
        [] ⟨3⟩).all (fun s => s.totalTabs != 0) = true ∧
    ((saveSessionHandler 9 [] [] [⟨1, [⟨10, some "https://a", "A", false⟩]⟩]
        [] ⟨3⟩).2).all (fun s => s.totalTabs != 0) = true :=
  saves_never_persist_empty 9 [] [] [⟨1, [⟨10, some "https://a", "A", false⟩]⟩]
    [] ⟨3⟩ rfl

/-- A lookup in an association list purged of a value never returns that
value. -/
theorem lookup_filter_ne (g : String) (m : TabGroupMap) (k : Nat) :
    (m.filter fun e => e.2 ≠ g).lookup k ≠ some g := by
  induction m with
  | nil => simp [List.lookup]
  | cons e t ih =>
    obtain ⟨k1, v1⟩ := e
    by_cases he : v1 = g
    · simpa [List.filter_cons, he] using ih
    · rw [List.filter_cons, if_pos (by simpa using he)]
      by_cases hk : k = k1
      · subst hk
        simpa [List.lookup] using he
      · have hbeq : (k == k1) = false := by simpa using hk
        simpa [List.lookup, hbeq] using ih

/-- C10: after a successful `deleteGroup`, no tab identifier in the whole
`tabGroupMap` maps to the deleted group id — the purge is not limited to
the addressed window. -/
theorem deleteGroupHandler_purges_all (windowId : Nat) (groupId : String)
    (tabGroupMap : TabGroupMap) (windowData : WindowData)
    (h : (deleteGroupHandler windowId groupId tabGroupMap windowData).1 = true) :
    ∀ tabId : Nat,
      ((deleteGroupHandler windowId groupId tabGroupMap windowData).2.1).lookup tabId ≠
        some groupId := by
  intro tabId
  by_cases hg : groupId ≠ "" ∧ windowId ≠ 0
  · rcases hwd : windowData.lookup windowId with _ | groupNames
    · simp [deleteGroupHandler, hg, hwd] at h
    · rcases hgn : groupNames.lookup groupId with _ | name
      · simp [deleteGroupHandler, hg, hwd, hgn] at h
      · by_cases hn : name ≠ ""
        · simp only [deleteGroupHandler, if_pos hg, hwd, hgn, if_pos hn]
          exact lookup_filter_ne groupId tabGroupMap tabId
        · simp [deleteGroupHandler, hg, hwd, hgn, hn] at h
  · simp [deleteGroupHandler, hg] at h

/-- Witness for C10: deleting group `g` of window 1 also ungroups a tab of
another window that was mapped to `g`. -/
theorem deleteGroupHandler_purges_all_witness :
    ((deleteGroupHandler 1 "g" [(5, "g"), (7, "g"), (9, "h")]
        [(1, [("g", "Work")]), (2, [("h", "Home")])]).2.1).lookup 7 ≠
      some "g" :=
  deleteGroupHandler_purges_all 1 "g" [(5, "g"), (7, "g"), (9, "h")]
    [(1, [("g", "Work")]), (2, [("h", "Home")])] rfl 7

/-- C9: migrating a legacy record (with no `sessions` key) stores exactly
one wrapped session — id synthesized from `lastSaved` (or the current
time), empty `groupNames` — and removes the legacy keys; the run is a
no-op when no legacy record exists or `sessions` already does, so a second
run never changes anything. -/
theorem migrateFromOldStorage_spec (now now2 : Nat)
    (legacySession : LegacySession) (lastSaved : Option Nat)
    (savedSession : Option LegacySession) (sessionList : List Session)
    (maybeSessions : Option (List Session)) (storage : LocalStorage) :
    migrateFromOldStorage now ⟨some legacySession, lastSaved, none⟩ =
      ⟨none, none,
        some [{ id := "session-" ++ toString (jsNatOr lastSaved now)
                timestamp := jsNatOr lastSaved (jsNatOr legacySession.timestamp now)
                totalTabs := totalTabsOf legacySession.windows
                windowCount := legacySession.windows.length
                windows := legacySession.windows
                groupNames := [] }]⟩ ∧
    migrateFromOldStorage now ⟨none, lastSaved, maybeSessions⟩ =
      ⟨none, lastSaved, maybeSessions⟩ ∧
    migrateFromOldStorage now ⟨savedSession, lastSaved, some sessionList⟩ =
      ⟨savedSession, lastSaved, some sessionList⟩ ∧
    migrateFromOldStorage now2 (migrateFromOldStorage now storage) =
      migrateFromOldStorage now storage := by
  refine ⟨rfl, ?_, ?_, ?_⟩
  · cases maybeSessions <;> rfl
  · cases savedSession <;> rfl
  · obtain ⟨sv, ls, ss⟩ := storage
    cases sv <;> cases ss <;> rfl

/-- C8: `restoreSession` fails with the invalid-session error exactly when
the session is absent or its windows list is empty, and in that case both
state maps are returned untouched and no window or tab identifier is
consumed (nothing is created). -/
theorem restoreSession_invalid_iff (session : Option Session)
    (tabGroupMap : TabGroupMap) (windowData : WindowData)
    (nextWinId nextTabId : Nat) :
    ((restoreSession session tabGroupMap windowData nextWinId nextTabId).1.isSome = true ↔
      session = none ∨ session.map Session.windows = some []) ∧
    ((restoreSession session tabGroupMap windowData nextWinId nextTabId).1.isSome = true →
      restoreSession session tabGroupMap windowData nextWinId nextTabId =
        (some "No valid session data to restore", tabGroupMap, windowData,
          nextWinId, nextTabId)) := by
  cases session with
  | none => simp [restoreSession]
  | some s =>
    by_cases hw : s.windows.length = 0
    · have hnil : s.windows = [] := List.length_eq_zero.mp hw
      constructor
      · simp [restoreSession, hw, hnil]
      · intro _
        simp [restoreSession, hw]
    · have hne : s.windows ≠ [] := by
        intro h0
        exact hw (by simp [h0])
      constructor
      · simp [restoreSession, hw, hne]
      · intro habs
        simp [restoreSession, hw] at habs

/-- Witness for C8: restoring a session with zero windows errors out and
leaves the two maps exactly as they were. -/
theorem restoreSession_invalid_iff_witness :
    restoreSession (some ⟨"s", 0, 0, 0, [], []⟩) [(3, "g")]
        [(1, [("g", "G")])] 5 7 =
      (some "No valid session data to restore", [(3, "g")],
        [(1, [("g", "G")])], 5, 7) :=
  (restoreSession_invalid_iff (some ⟨"s", 0, 0, 0, [], []⟩) [(3, "g")]
    [(1, [("g", "G")])] 5 7).2 (by decide)

end VTabs
